import Mathlib

/-!
Shallow embedding of `src/vs/workbench/browser/parts/editor/textDiffEditor.ts`:
the `TextDiffEditor` pane widget and its `NavigateAction` command objects.

The pane is a single-threaded, event-driven state machine.  We embed it as a
state type `PaneState` together with one step function per lifecycle entry
point of the source class:

* `TextDiffEditor.setInput`      — the synchronous part of `setInput`, up to
  and including the call to `input.resolve(true)` (which registers a pending
  resolution token);
* `TextDiffEditor.resolveCompleted` — the continuation that runs when a
  pending resolution settles (the `.then(success, error)` callbacks);
* `TextDiffEditor.clearInput`, `TextDiffEditor.dispose` — the other
  lifecycle hooks that touch the diff navigator;
* `stepOp` / `execState` — an operational semantics running an arbitrary
  interleaving of these entry points, which models the cooperative
  event-loop scheduling of the host.

Side effects on collaborator objects (the diff widget, the editor service,
the returned promise) are recorded as an event list `Ev` so that claims
about calls made ("exactly one re-open call", "no model is set") can be
stated as properties of the emitted events.
-/

/-- Kind of the editor input sitting on one side of a diff input.  The source
distinguishes `StringEditorInput` and `ResourceEditorInput` (both read-only
sides) from other inputs such as file inputs. -/
inductive SideKind where
  | stringEditor
  | resourceEditor
  | fileEditor
  | otherSide
  deriving DecidableEq, Repr

/-- One side (original or modified) of a diff editor input. -/
structure SideInput where
  id : Nat
  name : Option String
  kind : SideKind
  deriving DecidableEq, Repr

/-- Shape of an `EditorInput`: either a `DiffEditorInput` holding an
original/modified pair and a `forceOpenAsBinary` flag, or some other input
class. -/
inductive InputKind where
  | diff (originalInput modifiedInput : SideInput) (forceOpenAsBinary : Bool)
  | other
  deriving DecidableEq, Repr

/-- An `EditorInput` reference.  `id` models JavaScript reference identity
(the source compares inputs with `!==` in its staleness guard); `name` and
`description` model `getName()` / `getDescription()` with `none` standing
for a null-ish result. -/
structure EditorInput where
  id : Nat
  name : Option String
  description : Option String
  kind : InputKind
  matchesIds : List Nat
  deriving DecidableEq, Repr

/-- Returns true when the modelled input is a `DiffEditorInput`. -/
def InputKind.isDiff : InputKind → Bool
  | .diff _ _ _ => true
  | .other => false

/-- Modelled from the spec: `EditorInput.matches` is defined by the host
input classes (not in this repository slice).  Reference identity always
matches, `matchesIds` lists the ids of other inputs the host considers the
same logical input, and matching against a null current input is false. -/
def inputMatches (i : EditorInput) (old : Option EditorInput) : Bool :=
  match old with
  | none => false
  | some o => i.id == o.id || i.matchesIds.contains o.id

/-- The `EditorOptions` / `TextEditorOptions` / `TextDiffEditorOptions`
values threaded through `setInput`.  `hasTextApply` models
`types.isFunction(options.apply)`; `isTextDiffOptions` models
`options instanceof TextDiffEditorOptions`.  An absent options argument is
modelled by the all-default record. -/
structure EditorOptions where
  forceOpen : Bool := false
  hasTextApply : Bool := false
  isTextDiffOptions : Bool := false
  autoRevealFirstChange : Option Bool := none
  deriving DecidableEq, Repr

/-- The structured error shape of `IFileOperationResult`.  The numeric
value of the modelled `FileOperationResult.FILE_IS_BINARY` enum member. -/
def fileIsBinaryResult : Nat := 0

/-- An error object carrying an optional `fileOperationResult` code. -/
structure FileError where
  fileOperationResult : Option Nat
  deriving DecidableEq, Repr

/-- A resolution failure: the declared overloads of `isFileBinaryError`
accept a single `Error` or an `Error[]`. -/
inductive ResolveError where
  | single (e : FileError)
  | multiple (errors : List FileError)
  deriving DecidableEq, Repr

/-- `TextDiffEditor.isFileBinaryError`: an array of errors is binary when
some element is; a single error is binary when its `fileOperationResult`
is strictly equal to `FILE_IS_BINARY`. -/
def isFileBinaryError : ResolveError → Bool
  | .single e => e.fileOperationResult == some fileIsBinaryResult
  | .multiple es => es.any (fun e => e.fileOperationResult == some fileIsBinaryResult)

/-- The `DiffEditorInput` constructed by `openAsBinary`:
`new DiffEditorInput(input.getName(), input.getDescription(), originalInput,
modifiedInput, true)`. -/
structure DiffEditorInputData where
  name : Option String
  description : Option String
  originalInput : SideInput
  modifiedInput : SideInput
  forceOpenAsBinary : Bool
  deriving DecidableEq, Repr

/-- A `DiffNavigator` instance owned by the pane: the input it was created
for and whether `dispose()` has been called on it.  Navigator identity is
the position in the pane's creation-ordered navigator list. -/
structure Nav where
  forInput : Nat
  disposed : Bool
  deriving DecidableEq, Repr

/-- A pending `input.resolve(true)` whose `.then` continuation has not run
yet.  `tok` identifies the promise; `input` and `opts` are the values the
continuation closed over. -/
structure PendTok where
  tok : Nat
  input : EditorInput
  opts : EditorOptions
  deriving DecidableEq, Repr

/-- The mutable state of one `TextDiffEditor` pane.  `navs` records every
`DiffNavigator` ever constructed by the pane (in creation order) together
with its disposed flag; `diffNavigator` is the index the field
`this.diffNavigator` currently references (the source never nulls it, it is
only overwritten).  `controlModel` is the model currently set on the diff
widget; `nextEnabled` / `prevEnabled` are the enabled flags of the two
navigate actions created disabled in `createEditorControl`. -/
structure PaneState where
  input : Option EditorInput
  navs : List Nav
  diffNavigator : Option Nat
  pending : List PendTok
  nextTok : Nat
  controlModel : Option Nat
  nextEnabled : Bool
  prevEnabled : Bool
  deriving DecidableEq, Repr

/-- The pane right after `createEditorControl`: no input, no navigator, both
navigate actions disabled. -/
def initState : PaneState :=
  { input := none, navs := [], diffNavigator := none, pending := [],
    nextTok := 0, controlModel := none, nextEnabled := false, prevEnabled := false }

/-- Observable side effects on collaborators, recorded in emission order. -/
inductive Ev where
  | disposeNav (idx : Nat)
  | createNav (idx : Nat) (alwaysRevealFirst : Bool)
  | setModel (m : Option Nat)
  | openEditor (b : DiffEditorInputData)
  | applyTextOptions
  | updateOptions
  | promiseResolved
  | promiseRejected (e : ResolveError)
  deriving DecidableEq, Repr

/-- Lookup helper for navigator lists (index-based identity). -/
def navGet : List Nav → Nat → Option Nav
  | [], _ => none
  | n :: _, 0 => some n
  | _ :: rest, Nat.succ k => navGet rest k

/-- Marks a navigator as disposed. -/
def markDisposed (n : Nav) : Nav := { n with disposed := true }

/-- Sets the disposed flag of the navigator at index `d`. -/
def setDisposed : List Nav → Nat → List Nav
  | [], _ => []
  | n :: rest, 0 => markDisposed n :: rest
  | n :: rest, Nat.succ k => n :: setDisposed rest k

/-- The `if (this.diffNavigator) { this.diffNavigator.dispose(); }` pattern:
dispose the navigator the field currently references, if any. -/
def disposeCurrent (navs : List Nav) : Option Nat → List Nav
  | none => navs
  | some d => setDisposed navs d

/-- Events emitted by the dispose-previous-navigator pattern. -/
def disposeEvs : Option Nat → List Ev
  | none => []
  | some d => [Ev.disposeNav d]

/-- Finds the pending resolution with token `t`. -/
def findPending : List PendTok → Nat → Option PendTok
  | [], _ => none
  | p :: rest, t => if p.tok = t then some p else findPending rest t

/-- Removes the pending resolution with token `t`. -/
def removePending (l : List PendTok) (t : Nat) : List PendTok :=
  l.filter (fun p => p.tok != t)

namespace TextDiffEditor

/-- `TextDiffEditor.getTitle`: the input's name if an input is set, else the
localized default title.  `Option String` models a possibly null name. -/
def getTitle (s : PaneState) : Option String :=
  match s.input with
  | some i => i.name
  | none => some "Text Diff Editor"

/-- `TextDiffEditor.openAsBinary`: when the input is a `DiffEditorInput`,
builds the binary-flagged diff input passed to `editorService.openEditor`
and reports success; otherwise reports that the fallback does not apply. -/
def openAsBinary (input : EditorInput) : Option DiffEditorInputData :=
  match input.kind with
  | .diff originalInput modifiedInput _ =>
      some { name := input.name, description := input.description,
             originalInput := originalInput, modifiedInput := modifiedInput,
             forceOpenAsBinary := true }
  | .other => none

/-- The staleness guard of `setInput`'s success continuation:
`!this.getInput() || this.getInput() !== input`. -/
def staleCheck (s : PaneState) (i : EditorInput) : Bool :=
  match s.input with
  | none => true
  | some cur => cur.id != i.id

/-- The `autoRevealFirstChange` computation of the success continuation:
defaults to true, optionally overridden by `TextDiffEditorOptions`. -/
def autoReveal (o : EditorOptions) : Bool :=
  if o.isTextDiffOptions then o.autoRevealFirstChange.getD true else true

/-- The synchronous part of `TextDiffEditor.setInput`: remembers the old
input, calls `super.setInput` (modelled from the spec: the base editor
records the input as the pane's current input), returns early when the
input matches and no `forceOpen` option is set, and otherwise disposes the
previous diff navigator and starts `input.resolve(true)` (registering a
pending resolution). -/
def setInput (s : PaneState) (i : EditorInput) (o : EditorOptions) :
    PaneState × List Ev :=
  let oldInput := s.input
  let s1 := { s with input := some i }
  if !o.forceOpen && inputMatches i oldInput then
    (s1, if o.hasTextApply then [Ev.applyTextOptions] else [])
  else
    ({ s1 with
        navs := disposeCurrent s1.navs s1.diffNavigator,
        pending := s1.pending ++ [{ tok := s1.nextTok, input := i, opts := o }],
        nextTok := s1.nextTok + 1 },
     disposeEvs s1.diffNavigator)

/-- The tail of the success continuation after the binary check: the
staleness guard, then `diffEditor.setModel`, navigator construction,
text-option application and `updateOptions`.  When the resolved model is
not a `TextDiffEditorModel` (and the binary fallback did not apply) the
cast `(<TextDiffEditorModel>resolvedModel).textDiffEditorModel` yields an
undefined model, modelled by `none`. -/
def resolveLoad (s : PaneState) (p : PendTok) (isTextDiffModel : Bool)
    (modelId : Nat) : PaneState × List Ev :=
  if staleCheck s p.input then
    (s, [Ev.promiseResolved])
  else
    let modelSet : Option Nat := if isTextDiffModel then some modelId else none
    let idx := s.navs.length
    ({ s with
        navs := s.navs ++ [{ forInput := p.input.id, disposed := false }],
        diffNavigator := some idx,
        controlModel := modelSet },
     [Ev.setModel modelSet, Ev.createNav idx (autoReveal p.opts)] ++
       (if p.opts.hasTextApply then [Ev.applyTextOptions] else []) ++
       [Ev.updateOptions, Ev.promiseResolved])

/-- The success continuation of `input.resolve(true)`: first the binary
check `if (!(resolvedModel instanceof TextDiffEditorModel) &&
this.openAsBinary(input, options)) return null;`, then `resolveLoad`. -/
def resolveSuccess (s : PaneState) (p : PendTok) (isTextDiffModel : Bool)
    (modelId : Nat) : PaneState × List Ev :=
  if isTextDiffModel then
    resolveLoad s p isTextDiffModel modelId
  else
    match openAsBinary p.input with
    | some b => (s, [Ev.openEditor b, Ev.promiseResolved])
    | none => resolveLoad s p isTextDiffModel modelId

/-- Result of a settled `input.resolve(true)` promise. -/
inductive ResolveOutcome where
  | model (isTextDiffModel : Bool) (modelId : Nat)
  | failure (e : ResolveError)

/-- The continuation of `input.resolve(true)` for the pending resolution
`tok` (a no-op if no such resolution is pending): on success, the binary
check, staleness guard and widget update; on failure, the binary fallback
`if (this.isFileBinaryError(error) && this.openAsBinary(input, options))`
and otherwise `TPromise.wrapError(error)`. -/
def resolveCompleted (s : PaneState) (tok : Nat) (r : ResolveOutcome) :
    PaneState × List Ev :=
  match findPending s.pending tok with
  | none => (s, [])
  | some p =>
    let s1 := { s with pending := removePending s.pending tok }
    match r with
    | .model isTextDiffModel modelId => resolveSuccess s1 p isTextDiffModel modelId
    | .failure e =>
      if isFileBinaryError e then
        match openAsBinary p.input with
        | some b => (s1, [Ev.openEditor b, Ev.promiseResolved])
        | none => (s1, [Ev.promiseRejected e])
      else (s1, [Ev.promiseRejected e])

/-- `TextDiffEditor.clearInput`: dispose the previous diff navigator, clear
the model on the widget, and (modelled from the spec: `super.clearInput`
of the base editor) drop the current input. -/
def clearInput (s : PaneState) : PaneState × List Ev :=
  ({ s with
      navs := disposeCurrent s.navs s.diffNavigator,
      controlModel := none,
      input := none },
   disposeEvs s.diffNavigator ++ [Ev.setModel none])

/-- `TextDiffEditor.dispose`: dispose the previous diff navigator, then
`super.dispose`. -/
def dispose (s : PaneState) : PaneState × List Ev :=
  ({ s with navs := disposeCurrent s.navs s.diffNavigator },
   disposeEvs s.diffNavigator)

end TextDiffEditor

/-- True when `this.diffNavigator` references a live (undisposed) navigator,
i.e. when the UPDATED listener registered on it can still fire. -/
def navListenerActive (s : PaneState) : Bool :=
  match s.diffNavigator with
  | some d =>
    match navGet s.navs d with
    | some n => !n.disposed
    | none => false
  | none => false

/-- One event-loop turn on the pane: a lifecycle entry point or the settling
of a pending resolution or an UPDATED event of the live navigator carrying
the navigator's `canNavigate()` result. -/
inductive Op where
  | setInput (i : EditorInput) (o : EditorOptions)
  | resolve (tok : Nat) (r : TextDiffEditor.ResolveOutcome)
  | clearInput
  | disposePane
  | navUpdated (canNavigate : Bool)

/-- True for the UPDATED-event operation. -/
def Op.isNavUpdated : Op → Bool
  | .navUpdated _ => true
  | _ => false

/-- Single step of the pane semantics.  An UPDATED event of the live
navigator runs `updateEnablement` on both navigate actions, setting their
enabled flags to `canNavigate()`. -/
def stepOp (s : PaneState) : Op → PaneState × List Ev
  | .setInput i o => TextDiffEditor.setInput s i o
  | .resolve tok r => TextDiffEditor.resolveCompleted s tok r
  | .clearInput => TextDiffEditor.clearInput s
  | .disposePane => TextDiffEditor.dispose s
  | .navUpdated c =>
    if navListenerActive s then
      ({ s with nextEnabled := c, prevEnabled := c }, [])
    else (s, [])

/-- Runs a sequence of event-loop turns, returning the final state. -/
def execState (s : PaneState) (ops : List Op) : PaneState :=
  ops.foldl (fun s op => (stepOp s op).1) s

/-- The navigator at index `k` exists and has not been disposed. -/
def navLiveAt (l : List Nav) (k : Nat) : Prop :=
  ∃ n, navGet l k = some n ∧ n.disposed = false

/-- At most one navigator of the pane is live. -/
def AtMostOneLive (l : List Nav) : Prop :=
  ∀ i j, navLiveAt l i → navLiveAt l j → i = j

/-- One event-loop turn under sequential scheduling: each `setInput` that
starts a resolution is immediately followed by the settling of that
resolution, so no two resolutions are ever pending at the same time. -/
inductive SeqOp where
  | setInputResolved (i : EditorInput) (o : EditorOptions) (r : TextDiffEditor.ResolveOutcome)
  | clearInputOp
  | disposeOp
  | navUpdatedOp (canNavigate : Bool)

/-- Sequential-scheduling step: a `setInput` is run and then the resolution
it registered (if any) settles at once with result `r`. -/
def stepSeq (s : PaneState) : SeqOp → PaneState
  | .setInputResolved i o r =>
    (TextDiffEditor.resolveCompleted (TextDiffEditor.setInput s i o).1 s.nextTok r).1
  | .clearInputOp => (TextDiffEditor.clearInput s).1
  | .disposeOp => (TextDiffEditor.dispose s).1
  | .navUpdatedOp c => (stepOp s (.navUpdated c)).1

/-- Runs a sequence of sequentially-scheduled turns. -/
def execSeq (s : PaneState) (ops : List SeqOp) : PaneState :=
  ops.foldl stepSeq s

/-- Strengthened invariant for sequential executions: no resolution is
pending between turns, and every live navigator is the one the
`diffNavigator` field currently references. -/
def SeqInvariant (s : PaneState) : Prop :=
  s.pending = [] ∧ ∀ k, navLiveAt s.navs k → s.diffNavigator = some k

/-- Sample inputs and traces used by concrete theorems below. -/
def cSideOrig : SideInput := { id := 10, name := some "orig", kind := .fileEditor }

def cSideMod : SideInput := { id := 11, name := some "mod", kind := .fileEditor }

def cInputA : EditorInput :=
  { id := 0, name := some "a", description := none, kind := .other, matchesIds := [] }

def cInputB : EditorInput :=
  { id := 1, name := some "b", description := none, kind := .other, matchesIds := [] }

def cDiffInput : EditorInput :=
  { id := 2, name := some "orig - mod", description := some "workspace",
    kind := .diff cSideOrig cSideMod false, matchesIds := [] }

def cForceOpts : EditorOptions := { forceOpen := true }

/-- Interleaved trace: the same input is force-opened twice, and both
resolutions settle afterwards.  Both settle while the pane's input is still
that very input, so both pass the staleness guard and each constructs a
navigator; only the second one is referenced by `diffNavigator`. -/
def c1Trace : List Op :=
  [Op.setInput cInputA cForceOpts,
   Op.setInput cInputA cForceOpts,
   Op.resolve 0 (.model true 1),
   Op.resolve 1 (.model true 2)]

/-- Concrete pane showing the current input `cInputA` with a live navigator. -/
def c2State : PaneState :=
  { initState with
      input := some cInputA,
      navs := [{ forInput := 0, disposed := false }],
      diffNavigator := some 0 }

/-- Concrete pane with a pending resolution of the diff input `cDiffInput`. -/
def c3State : PaneState :=
  { initState with
      input := some cDiffInput,
      pending := [{ tok := 7, input := cDiffInput, opts := {} }] }

/-- A resolution failure carrying `FILE_IS_BINARY`. -/
def cBinaryError : ResolveError :=
  .single { fileOperationResult := some fileIsBinaryResult }

/-- Concrete pane with a pending resolution of the non-diff input `cInputA`. -/
def c4State : PaneState :=
  { initState with
      input := some cInputA,
      pending := [{ tok := 3, input := cInputA, opts := {} }] }

/-- A resolution failure whose code is not `FILE_IS_BINARY`. -/
def cOtherError : ResolveError := .single { fileOperationResult := some 1 }

/-- Events that are visible updates in the sense of C5: setting a model on
the widget, creating a navigator, or a re-open call via the editor service. -/
def Ev.isVisibleUpdate : Ev → Bool
  | .setModel _ => true
  | .createNav _ _ => true
  | .openEditor _ => true
  | _ => false

/-- Events that set a model on the widget or create a navigator. -/
def Ev.isModelOrNavigatorUpdate : Ev → Bool
  | .setModel _ => true
  | .createNav _ _ => true
  | _ => false

/-- The property claimed by C5: a resolution that settles after the pane's
input has changed (or was cleared) produces no visible update at all. -/
def StaleResolutionInvisible : Prop :=
  ∀ (s : PaneState) (tok : Nat) (p : PendTok) (r : TextDiffEditor.ResolveOutcome),
    findPending s.pending tok = some p →
    TextDiffEditor.staleCheck s p.input = true →
    ∀ ev ∈ (TextDiffEditor.resolveCompleted s tok r).2, ev.isVisibleUpdate = false

/-- Concrete pane whose input has moved on to `cInputB` while a resolution
of the diff input `cDiffInput` is still pending. -/
def c5State : PaneState :=
  { initState with
      input := some cInputB,
      pending := [{ tok := 0, input := cDiffInput, opts := {} }] }

/-- Concrete pane with a live navigator referenced by `diffNavigator`. -/
def c6LiveState : PaneState :=
  { initState with
      input := some cInputA,
      navs := [{ forInput := 0, disposed := false }],
      diffNavigator := some 0 }

/-- A call forwarded to the diff navigator by a navigate action. -/
inductive NavigatorCall where
  | nextCall
  | previousCall
  deriving DecidableEq, Repr

/-- The `NavigateAction` command object: direction flag plus the
label/class/enabled contract of the host action interface. -/
structure NavigateAction where
  next : Bool
  label : String
  className : String
  enabled : Bool
  deriving DecidableEq, Repr

/-- The `NavigateAction` constructor: label and CSS class depend on the
direction, and the action starts disabled. -/
def mkNavigateAction (next : Bool) : NavigateAction :=
  { next := next,
    label := if next then "Next Change" else "Previous Change",
    className := if next then "textdiff-editor-action next"
                 else "textdiff-editor-action previous",
    enabled := false }

/-- `NavigateAction.run`: forwards one call to the pane's diff navigator,
`next()` when the direction flag is set and `previous()` otherwise. -/
def NavigateAction.run (a : NavigateAction) : List NavigatorCall :=
  if a.next then [.nextCall] else [.previousCall]

/-- The slice of `IDiffEditorOptions` this component writes. -/
structure IEditorOptions where
  readOnly : Bool := false
  ariaLabel : Option String := none
  deriving DecidableEq, Repr

/-- JS truthiness of the `inputName` string used for the ARIA label:
null-ish values and the empty string are falsy. -/
def truthyName : Option String → Bool
  | none => false
  | some s => !s.isEmpty

/-- `modifiedInput instanceof StringEditorInput || modifiedInput instanceof
ResourceEditorInput`. -/
def readOnlyModified (m : SideInput) : Bool :=
  match m.kind with
  | .stringEditor => true
  | .resourceEditor => true
  | .fileEditor => false
  | .otherSide => false

/-- `TextDiffEditor.getCodeEditorOptions`: starting from the base editor's
options (modelled from the spec: computed by the base class from the
configuration service, passed here as `base`), a diff input forces
`readOnly` exactly when its modified side is a string- or resource-editor
input, and picks the readonly/editable ARIA label, name-prefixed when
`inputName` is truthy. -/
def getCodeEditorOptions (base : IEditorOptions) (s : PaneState) : IEditorOptions :=
  match s.input with
  | some input =>
    match input.kind with
    | .diff _ modifiedInput _ =>
      let readOnly := readOnlyModified modifiedInput
      let ariaLabel :=
        if truthyName input.name then
          if readOnly then input.name.getD "" ++ ". Readonly text compare editor."
          else input.name.getD "" ++ ". Text file compare editor."
        else
          if readOnly then "Readonly text compare editor."
          else "Text file compare editor."
      { base with readOnly := readOnly, ariaLabel := some ariaLabel }
    | .other => base
  | none => base

/-- Specification-side label of C9: the plain label, prefixed by the input
name when one exists. -/
def withNameLabel (name : Option String) (plain : String) : String :=
  match name with
  | some n => if n.isEmpty then plain else n ++ ". " ++ plain
  | none => plain

/-- Label of the toggle action when the control is in inline mode. -/
def sideBySideLabel : String := "Switch to Side by Side View"

/-- Label of the toggle action when the control is in side-by-side mode. -/
def inlineViewLabel : String := "Switch to Inline View"

/-- The `toggleEditorModeAction` closure state of `getSecondaryActions`:
the captured `inlineModeActive` flag and the action's current label. -/
structure ToggleEditorModeAction where
  inlineModeActive : Bool
  label : String
  deriving DecidableEq, Repr

/-- Construction of the toggle action in `getSecondaryActions`:
`inlineModeActive = control && !control.renderSideBySide` (with a control
present), labelled for switching to the other mode. -/
def getToggleEditorModeAction (controlRenderSideBySide : Bool) : ToggleEditorModeAction :=
  let inlineModeActive := !controlRenderSideBySide
  { inlineModeActive := inlineModeActive,
    label := if inlineModeActive then sideBySideLabel else inlineViewLabel }

/-- Running the toggle action: it sends `renderSideBySide := inlineModeActive`
to `updateOptions` on the control (returned as the second component), flips
`inlineModeActive` and relabels itself. -/
def toggleEditorModeRun (a : ToggleEditorModeAction) : ToggleEditorModeAction × Bool :=
  let sent := a.inlineModeActive
  let newInline := !a.inlineModeActive
  ({ inlineModeActive := newInline,
     label := if newInline then sideBySideLabel else inlineViewLabel },
   sent)

theorem navGet_setDisposed (l : List Nav) (d k : Nat) :
    navGet (setDisposed l d) k =
      if k = d then (navGet l k).map markDisposed else navGet l k := by
  induction l generalizing d k with
  | nil => simp [setDisposed, navGet]
  | cons n rest ih =>
    cases d with
    | zero =>
      cases k with
      | zero => simp [setDisposed, navGet]
      | succ k => simp [setDisposed, navGet]
    | succ d =>
      cases k with
      | zero => simp [setDisposed, navGet]
      | succ k =>
        simp only [setDisposed, navGet]
        rw [ih d k]
        by_cases h : k = d
        · simp [h]
        · rw [if_neg h, if_neg (by omega)]

theorem navGet_append (l m : List Nav) (k : Nat) :
    navGet (l ++ m) k =
      if k < l.length then navGet l k else navGet m (k - l.length) := by
  induction l generalizing k with
  | nil => simp [navGet]
  | cons n rest ih =>
    cases k with
    | zero => simp [navGet]
    | succ k =>
      simp only [List.cons_append, navGet, List.length_cons]
      rw [show rest.append m = rest ++ m from rfl, ih k]
      by_cases h : k < rest.length
      · rw [if_pos h, if_pos (by omega)]
      · rw [if_neg h, if_neg (by omega)]
        congr 1
        omega

theorem noLive_disposeCurrent (navs : List Nav) (dn : Option Nat)
    (h : ∀ k, navLiveAt navs k → dn = some k) :
    ∀ k, ¬ navLiveAt (disposeCurrent navs dn) k := by
  intro k hk
  cases dn with
  | none =>
    exact Option.noConfusion (h k hk)
  | some d =>
    obtain ⟨n, hget, hdisp⟩ := hk
    rw [disposeCurrent] at hget
    rw [navGet_setDisposed] at hget
    by_cases hkd : k = d
    · subst hkd
      simp only [if_pos rfl] at hget
      cases hn : navGet navs k with
      | none => rw [hn] at hget; exact Option.noConfusion hget
      | some n0 =>
        rw [hn] at hget
        have hh : markDisposed n0 = n := by simpa using hget
        rw [← hh] at hdisp
        simp [markDisposed] at hdisp
    · simp only [if_neg hkd] at hget
      have := h k ⟨n, hget, hdisp⟩
      have : d = k := Option.some.inj this
      exact hkd this.symm

theorem setInput_same (s : PaneState) (i : EditorInput) (o : EditorOptions)
    (hc : (!o.forceOpen && inputMatches i s.input) = true) :
    TextDiffEditor.setInput s i o =
      ({ s with input := some i },
       if o.hasTextApply then [Ev.applyTextOptions] else []) := by
  simp [TextDiffEditor.setInput, hc]

theorem setInput_proceed (s : PaneState) (i : EditorInput) (o : EditorOptions)
    (hc : (!o.forceOpen && inputMatches i s.input) = false) :
    TextDiffEditor.setInput s i o =
      ({ s with
          input := some i,
          navs := disposeCurrent s.navs s.diffNavigator,
          pending := s.pending ++ [{ tok := s.nextTok, input := i, opts := o }],
          nextTok := s.nextTok + 1 },
       disposeEvs s.diffNavigator) := by
  simp [TextDiffEditor.setInput, hc]

theorem resolveCompleted_noPending (s : PaneState) (t : Nat)
    (r : TextDiffEditor.ResolveOutcome) (h : findPending s.pending t = none) :
    TextDiffEditor.resolveCompleted s t r = (s, []) := by
  simp [TextDiffEditor.resolveCompleted, h]

theorem PendTok_input (t : Nat) (i : EditorInput) (o : EditorOptions) :
    ({ tok := t, input := i, opts := o } : PendTok).input = i := rfl

theorem PendTok_opts (t : Nat) (i : EditorInput) (o : EditorOptions) :
    ({ tok := t, input := i, opts := o } : PendTok).opts = o := rfl

theorem resolveLoad_stale (s : PaneState) (p : PendTok) (b : Bool) (mid : Nat)
    (hst : TextDiffEditor.staleCheck s p.input = true) :
    TextDiffEditor.resolveLoad s p b mid = (s, [Ev.promiseResolved]) := by
  simp [TextDiffEditor.resolveLoad, hst]

theorem resolveLoad_fresh (s : PaneState) (t : Nat) (i : EditorInput)
    (o : EditorOptions) (b : Bool) (mid : Nat)
    (hst : TextDiffEditor.staleCheck s i = false) :
    (TextDiffEditor.resolveLoad s { tok := t, input := i, opts := o } b mid).1 =
      { s with
          navs := s.navs ++ [{ forInput := i.id, disposed := false }],
          diffNavigator := some s.navs.length,
          controlModel := if b then some mid else none } := by
  simp [TextDiffEditor.resolveLoad, TextDiffEditor.staleCheck] at hst ⊢
  simp [hst]

theorem live_append_one (l : List Nav) (a : Nav)
    (hnl : ∀ k, ¬ navLiveAt l k) :
    ∀ k, navLiveAt (l ++ [a]) k → k = l.length := by
  intro k hk
  obtain ⟨n, hget, hdisp⟩ := hk
  rw [navGet_append] at hget
  by_cases h : k < l.length
  · rw [if_pos h] at hget
    exact absurd ⟨n, hget, hdisp⟩ (hnl k)
  · rw [if_neg h] at hget
    cases hd : k - l.length with
    | zero => omega
    | succ m =>
      rw [hd] at hget
      simp [navGet] at hget

theorem stepSeq_invariant (s : PaneState) (op : SeqOp) (h : SeqInvariant s) :
    SeqInvariant (stepSeq s op) := by
  obtain ⟨hp, hlive⟩ := h
  cases op with
  | navUpdatedOp c =>
    simp only [stepSeq, stepOp]
    cases hnl : navListenerActive s with
    | false => simp only [hnl, Bool.false_eq_true, if_false]; exact ⟨hp, hlive⟩
    | true => simp only [hnl, if_true]; exact ⟨hp, fun k hk => hlive k hk⟩
  | clearInputOp =>
    exact ⟨hp, fun k hk => absurd hk (noLive_disposeCurrent s.navs s.diffNavigator hlive k)⟩
  | disposeOp =>
    exact ⟨hp, fun k hk => absurd hk (noLive_disposeCurrent s.navs s.diffNavigator hlive k)⟩
  | setInputResolved i o r =>
    cases hc : (!o.forceOpen && inputMatches i s.input) with
    | true =>
      have e1 := setInput_same s i o hc
      simp only [stepSeq, e1]
      have hfp : findPending (({ s with input := some i } : PaneState)).pending s.nextTok = none := by
        show findPending s.pending s.nextTok = none
        rw [hp]; rfl
      rw [resolveCompleted_noPending _ _ _ hfp]
      exact ⟨hp, fun k hk => hlive k hk⟩
    | false =>
      have e1 := setInput_proceed s i o hc
      simp only [stepSeq, e1]
      have hnolive := noLive_disposeCurrent s.navs s.diffNavigator hlive
      rw [hp]
      simp only [List.nil_append]
      simp only [TextDiffEditor.resolveCompleted, findPending, removePending,
        List.filter, bne_self_eq_false, eq_self_iff_true, if_true,
        PendTok_input, PendTok_opts]
      cases r with
      | failure e =>
        cases hbe : isFileBinaryError e with
        | false =>
          simp only [hbe, Bool.false_eq_true, if_false]
          exact ⟨rfl, fun k hk => absurd hk (hnolive k)⟩
        | true =>
          simp only [hbe, if_true]
          cases hob : TextDiffEditor.openAsBinary i with
          | some b => simp only [hob]; exact ⟨rfl, fun k hk => absurd hk (hnolive k)⟩
          | none => simp only [hob]; exact ⟨rfl, fun k hk => absurd hk (hnolive k)⟩
      | model isText mid =>
        simp only [TextDiffEditor.resolveSuccess, PendTok_input, PendTok_opts]
        have hst : TextDiffEditor.staleCheck
            ({ s with
                input := some i,
                navs := disposeCurrent s.navs s.diffNavigator,
                pending := [],
                nextTok := s.nextTok + 1 } : PaneState) i = false := by
          simp [TextDiffEditor.staleCheck]
        cases isText with
        | true =>
          simp only [if_true]
          constructor
          · rw [resolveLoad_fresh _ _ _ _ _ _ hst]
          · intro k hk
            rw [resolveLoad_fresh _ _ _ _ _ _ hst] at hk
            have hk2 := live_append_one _ _ (fun k2 => hnolive k2) k hk
            rw [resolveLoad_fresh _ _ _ _ _ _ hst]
            simp only [hk2]
        | false =>
          simp only [Bool.false_eq_true, if_false]
          cases hob : TextDiffEditor.openAsBinary i with
          | some b =>
            simp only [hob]
            exact ⟨rfl, fun k hk => absurd hk (hnolive k)⟩
          | none =>
            simp only [hob]
            constructor
            · rw [resolveLoad_fresh _ _ _ _ _ _ hst]
            · intro k hk
              rw [resolveLoad_fresh _ _ _ _ _ _ hst] at hk
              have hk2 := live_append_one _ _ (fun k2 => hnolive k2) k hk
              rw [resolveLoad_fresh _ _ _ _ _ _ hst]
              simp only [hk2]

theorem seqInvariant_init : SeqInvariant initState := by
  constructor
  · rfl
  · intro k hk
    obtain ⟨n, hget, _⟩ := hk
    cases k <;> exact Option.noConfusion hget

theorem execSeq_invariant (ops : List SeqOp) (s : PaneState) (h : SeqInvariant s) :
    SeqInvariant (execSeq s ops) := by
  induction ops generalizing s with
  | nil => exact h
  | cons op rest ih => exact ih _ (stepSeq_invariant s op h)

theorem seqInvariant_atMostOneLive (s : PaneState) (h : SeqInvariant s) :
    AtMostOneLive s.navs := by
  intro i j hi hj
  have h1 := h.2 i hi
  have h2 := h.2 j hj
  rw [h1] at h2
  exact Option.some.inj h2

/-- C1 (claim as stated, refuted): it is not the case that in every
interleaved execution of the pane at most one diff navigator is live at a
time.  Setting the same input twice with `forceOpen` and letting both
resolutions settle afterwards leaves two undisposed navigators: both
continuations pass the staleness guard (`getInput() !== input` compares the
same reference), and the second `this.diffNavigator = new DiffNavigator(...)`
overwrites the field without disposing the first navigator. -/
theorem c1_counterexample :
    ¬ (∀ ops : List Op, AtMostOneLive (execState initState ops).navs) := by
  intro h
  have h2 := h c1Trace 0 1
    ⟨{ forInput := 0, disposed := false }, rfl, rfl⟩
    ⟨{ forInput := 0, disposed := false }, rfl, rfl⟩
  exact absurd h2 (by decide)

/-- C1 (amended): in every execution in which each input resolution settles
before the next operation on the pane (no two resolutions pending at once),
at most one diff navigator is live at a time — whenever `setInput` proceeds
to load an input, `clearInput` is called, or the pane is disposed, the
existing navigator is disposed before a new navigator is created. -/
theorem c1_amended_at_most_one_navigator (ops : List SeqOp) :
    AtMostOneLive (execSeq initState ops).navs :=
  seqInvariant_atMostOneLive _ (execSeq_invariant ops initState seqInvariant_init)

/-- C2: when `setInput` is called with an input that matches the current one
and the `forceOpen` option is not set, the pane returns early: no navigator
is disposed or recreated (navigator list, `diffNavigator` reference,
pending resolutions and widget model are unchanged) and the only effect is
at most applying text options to the control. -/
theorem c2_same_input_no_recreate (s : PaneState) (i : EditorInput)
    (o : EditorOptions) (hf : o.forceOpen = false)
    (hm : inputMatches i s.input = true) :
    (TextDiffEditor.setInput s i o).1.navs = s.navs ∧
    (TextDiffEditor.setInput s i o).1.diffNavigator = s.diffNavigator ∧
    (TextDiffEditor.setInput s i o).1.pending = s.pending ∧
    (TextDiffEditor.setInput s i o).1.controlModel = s.controlModel ∧
    (TextDiffEditor.setInput s i o).2 =
      (if o.hasTextApply then [Ev.applyTextOptions] else []) := by
  have hc : (!o.forceOpen && inputMatches i s.input) = true := by
    rw [hf, hm]; rfl
  rw [setInput_same s i o hc]
  exact ⟨rfl, rfl, rfl, rfl, rfl⟩

/-- Witness for C2 at a concrete pane state: re-setting the same input with
default options leaves the navigator untouched and emits nothing. -/
theorem c2_witness :
    (TextDiffEditor.setInput c2State cInputA {}).1.navs = c2State.navs ∧
    (TextDiffEditor.setInput c2State cInputA {}).1.diffNavigator = c2State.diffNavigator ∧
    (TextDiffEditor.setInput c2State cInputA {}).1.pending = c2State.pending ∧
    (TextDiffEditor.setInput c2State cInputA {}).1.controlModel = c2State.controlModel ∧
    (TextDiffEditor.setInput c2State cInputA {}).2 =
      (if ({} : EditorOptions).hasTextApply then [Ev.applyTextOptions] else []) :=
  c2_same_input_no_recreate c2State cInputA {} rfl (by decide)

/-- C3: when resolution fails with an error recognized as FILE_IS_BINARY and
the input is a diff-editor input, the continuation performs exactly one
re-open call through the editor service, with a binary-flagged
`DiffEditorInput` built from the same original/modified pair and the same
name and description, and the error is suppressed (the promise resolves). -/
theorem c3_binary_error_reopens (s : PaneState) (tok : Nat) (i : EditorInput)
    (o : EditorOptions) (e : ResolveError) (orig modi : SideInput) (fb : Bool)
    (hp : findPending s.pending tok = some { tok := tok, input := i, opts := o })
    (hk : i.kind = InputKind.diff orig modi fb)
    (hbin : isFileBinaryError e = true) :
    (TextDiffEditor.resolveCompleted s tok (.failure e)).2 =
      [Ev.openEditor
         { name := i.name,
           description := i.description,
           originalInput := orig,
           modifiedInput := modi,
           forceOpenAsBinary := true },
       Ev.promiseResolved] := by
  simp only [TextDiffEditor.resolveCompleted, hp, hbin, if_true, PendTok_input]
  simp [TextDiffEditor.openAsBinary, hk]

/-- Witness for C3: the binary failure of `cDiffInput` re-opens exactly the
binary-flagged variant of the same comparison pair and resolves. -/
theorem c3_witness :
    (TextDiffEditor.resolveCompleted c3State 7 (.failure cBinaryError)).2 =
      [Ev.openEditor
         { name := cDiffInput.name,
           description := cDiffInput.description,
           originalInput := cSideOrig,
           modifiedInput := cSideMod,
           forceOpenAsBinary := true },
       Ev.promiseResolved] :=
  c3_binary_error_reopens c3State 7 cDiffInput {} cBinaryError cSideOrig cSideMod false
    rfl rfl (by decide)

/-- C4: when resolution fails with an error that is not the binary-file
condition, or the binary fallback does not apply because the input is not a
diff-editor input, the continuation re-raises exactly the original error
(the promise rejects with it) and performs no other effect beyond dropping
the pending resolution. -/
theorem c4_other_error_rethrown (s : PaneState) (tok : Nat) (i : EditorInput)
    (o : EditorOptions) (e : ResolveError)
    (hp : findPending s.pending tok = some { tok := tok, input := i, opts := o })
    (hc : isFileBinaryError e = false ∨ i.kind.isDiff = false) :
    (TextDiffEditor.resolveCompleted s tok (.failure e)).2 = [Ev.promiseRejected e] ∧
    (TextDiffEditor.resolveCompleted s tok (.failure e)).1 =
      { s with pending := removePending s.pending tok } := by
  simp only [TextDiffEditor.resolveCompleted, hp, PendTok_input]
  rcases hc with hbe | hnd
  · simp [hbe]
  · cases hbe2 : isFileBinaryError e with
    | false => simp [hbe2]
    | true =>
      have hob : TextDiffEditor.openAsBinary i = none := by
        cases hk : i.kind with
        | diff a b f => rw [hk] at hnd; simp [InputKind.isDiff] at hnd
        | other => simp [TextDiffEditor.openAsBinary, hk]
      simp [hbe2, hob]

/-- Witness for C4: a non-binary failure rejects with exactly that error. -/
theorem c4_witness :
    (TextDiffEditor.resolveCompleted c4State 3 (.failure cOtherError)).2 =
      [Ev.promiseRejected cOtherError] ∧
    (TextDiffEditor.resolveCompleted c4State 3 (.failure cOtherError)).1 =
      { c4State with pending := removePending c4State.pending 3 } :=
  c4_other_error_rethrown c4State 3 cInputA {} cOtherError rfl (Or.inl (by decide))

/-- C5 (claim as stated, refuted): a stale resolution is not always
invisible.  The binary fallback runs before the staleness guard in the
success continuation (and the error continuation has no staleness guard at
all), so a stale resolution of a diff input that yields a non-text model
still performs a re-open call through the editor service. -/
theorem c5_counterexample : ¬ StaleResolutionInvisible := by
  intro h
  have h2 := h c5State 0 { tok := 0, input := cDiffInput, opts := {} }
    (.model false 7) rfl rfl
    (Ev.openEditor
       { name := cDiffInput.name,
         description := cDiffInput.description,
         originalInput := cSideOrig,
         modifiedInput := cSideMod,
         forceOpenAsBinary := true })
    (by decide)
  simp [Ev.isVisibleUpdate] at h2

/-- C5 (amended): a resolution that settles after the pane's input has
changed (or was cleared) sets no model on the diff editor widget and
creates no navigator — the navigator list, the `diffNavigator` reference
and the widget model are unchanged; however, when the late resolution
indicates a binary file and its input is a diff input, a re-open call may
still be made, because the binary fallback is not staleness-guarded. -/
theorem c5_amended_stale_no_model_no_navigator (s : PaneState) (tok : Nat)
    (p : PendTok) (r : TextDiffEditor.ResolveOutcome)
    (hp : findPending s.pending tok = some p)
    (hstale : TextDiffEditor.staleCheck s p.input = true) :
    (TextDiffEditor.resolveCompleted s tok r).1.navs = s.navs ∧
    (TextDiffEditor.resolveCompleted s tok r).1.diffNavigator = s.diffNavigator ∧
    (TextDiffEditor.resolveCompleted s tok r).1.controlModel = s.controlModel ∧
    ∀ ev ∈ (TextDiffEditor.resolveCompleted s tok r).2,
      ev.isModelOrNavigatorUpdate = false := by
  simp only [TextDiffEditor.resolveCompleted, hp]
  have hstale2 : TextDiffEditor.staleCheck
      ({ s with pending := removePending s.pending tok } : PaneState) p.input = true := hstale
  cases r with
  | failure e =>
    cases hbe : isFileBinaryError e with
    | false =>
      simp [hbe, Ev.isModelOrNavigatorUpdate]
    | true =>
      cases hob : TextDiffEditor.openAsBinary p.input with
      | some b => simp [hbe, hob, Ev.isModelOrNavigatorUpdate]
      | none => simp [hbe, hob, Ev.isModelOrNavigatorUpdate]
  | model isText mid =>
    simp only [TextDiffEditor.resolveSuccess]
    cases isText with
    | true =>
      simp only [if_true]
      rw [resolveLoad_stale _ _ _ _ hstale2]
      simp [Ev.isModelOrNavigatorUpdate]
    | false =>
      simp only [Bool.false_eq_true, if_false]
      cases hob : TextDiffEditor.openAsBinary p.input with
      | some b => simp [hob, Ev.isModelOrNavigatorUpdate]
      | none =>
        simp only [hob]
        rw [resolveLoad_stale _ _ _ _ hstale2]
        simp [Ev.isModelOrNavigatorUpdate]

/-- Witness for the amended C5: the stale successful text resolution of
`cDiffInput` at `c5State` changes neither the navigator list, the
navigator reference, nor the widget model, and emits only the promise
resolution. -/
theorem c5_witness :
    (TextDiffEditor.resolveCompleted c5State 0 (.model true 3)).1.navs = c5State.navs ∧
    (TextDiffEditor.resolveCompleted c5State 0 (.model true 3)).1.diffNavigator = c5State.diffNavigator ∧
    (TextDiffEditor.resolveCompleted c5State 0 (.model true 3)).1.controlModel = c5State.controlModel ∧
    ∀ ev ∈ (TextDiffEditor.resolveCompleted c5State 0 (.model true 3)).2,
      ev.isModelOrNavigatorUpdate = false :=
  c5_amended_stale_no_model_no_navigator c5State 0
    { tok := 0, input := cDiffInput, opts := {} } (.model true 3) rfl rfl

theorem resolveLoad_enabled (s : PaneState) (p : PendTok) (b : Bool) (mid : Nat) :
    (TextDiffEditor.resolveLoad s p b mid).1.nextEnabled = s.nextEnabled ∧
    (TextDiffEditor.resolveLoad s p b mid).1.prevEnabled = s.prevEnabled := by
  simp only [TextDiffEditor.resolveLoad]
  split
  · exact ⟨rfl, rfl⟩
  · exact ⟨rfl, rfl⟩

theorem stepOp_preserves_enabled (s : PaneState) (op : Op)
    (h : op.isNavUpdated = false) :
    (stepOp s op).1.nextEnabled = s.nextEnabled ∧
    (stepOp s op).1.prevEnabled = s.prevEnabled := by
  cases op with
  | navUpdated c => simp [Op.isNavUpdated] at h
  | clearInput => exact ⟨rfl, rfl⟩
  | disposePane => exact ⟨rfl, rfl⟩
  | setInput i o =>
    simp only [stepOp]
    cases hc : (!o.forceOpen && inputMatches i s.input) with
    | true => rw [setInput_same s i o hc]; exact ⟨rfl, rfl⟩
    | false => rw [setInput_proceed s i o hc]; exact ⟨rfl, rfl⟩
  | resolve tok r =>
    simp only [stepOp]
    cases hfp : findPending s.pending tok with
    | none => rw [resolveCompleted_noPending _ _ _ hfp]; exact ⟨rfl, rfl⟩
    | some p =>
      simp only [TextDiffEditor.resolveCompleted, hfp]
      cases r with
      | failure e =>
        cases hbe : isFileBinaryError e with
        | false => simp [hbe]
        | true =>
          cases hob : TextDiffEditor.openAsBinary p.input with
          | some b => simp [hbe, hob]
          | none => simp [hbe, hob]
      | model isText mid =>
        simp only [TextDiffEditor.resolveSuccess]
        cases isText with
        | true =>
          simp only [if_true]
          exact resolveLoad_enabled _ _ _ _
        | false =>
          simp only [Bool.false_eq_true, if_false]
          cases hob : TextDiffEditor.openAsBinary p.input with
          | some b => simp [hob]
          | none =>
            simp only [hob]
            exact resolveLoad_enabled _ _ _ _

theorem execState_preserves_enabled (ops : List Op) (s : PaneState)
    (h : ∀ op ∈ ops, op.isNavUpdated = false) :
    (execState s ops).nextEnabled = s.nextEnabled ∧
    (execState s ops).prevEnabled = s.prevEnabled := by
  induction ops generalizing s with
  | nil => exact ⟨rfl, rfl⟩
  | cons op rest ih =>
    have h1 := stepOp_preserves_enabled s op (h op (List.mem_cons_self op rest))
    have h2 := ih (stepOp s op).1 (fun o2 ho => h o2 (List.mem_cons_of_mem _ ho))
    exact ⟨h2.1.trans h1.1, h2.2.trans h1.2⟩

/-- C6: before any navigator UPDATED event both navigate actions are
disabled (they are created with `enabled = false` and no other operation
touches the flags), and on every UPDATED event of the live navigator both
actions' enabled flags are set to the navigator's `canNavigate()` result. -/
theorem c6_actions_mirror_navigator :
    (∀ ops : List Op, (∀ op ∈ ops, op.isNavUpdated = false) →
        (execState initState ops).nextEnabled = false ∧
        (execState initState ops).prevEnabled = false) ∧
    (∀ (s : PaneState) (c : Bool), navListenerActive s = true →
        (stepOp s (.navUpdated c)).1.nextEnabled = c ∧
        (stepOp s (.navUpdated c)).1.prevEnabled = c) := by
  constructor
  · intro ops h
    exact execState_preserves_enabled ops initState h
  · intro s c h
    simp [stepOp, h]

/-- Witness for C6: after a `setInput` turn with no UPDATED event both
actions are still disabled, and an UPDATED event with `canNavigate() = true`
enables both. -/
theorem c6_witness :
    ((execState initState [Op.setInput cInputA cForceOpts]).nextEnabled = false ∧
     (execState initState [Op.setInput cInputA cForceOpts]).prevEnabled = false) ∧
    ((stepOp c6LiveState (.navUpdated true)).1.nextEnabled = true ∧
     (stepOp c6LiveState (.navUpdated true)).1.prevEnabled = true) :=
  ⟨c6_actions_mirror_navigator.1 [Op.setInput cInputA cForceOpts] (by decide),
   c6_actions_mirror_navigator.2 c6LiveState true (by decide)⟩

/-- C7: running a navigate action forwards exactly one call to the pane's
diff navigator: the action constructed with `next = true` calls `next()`
and nothing else, and the one constructed with `next = false` calls
`previous()` and nothing else. -/
theorem c7_run_forwards_one_call : ∀ b : Bool,
    (mkNavigateAction b).run.length = 1 ∧
    (b = true → (mkNavigateAction b).run = [NavigatorCall.nextCall]) ∧
    (b = false → (mkNavigateAction b).run = [NavigatorCall.previousCall]) := by
  decide

/-- Witness for C7 at both concrete directions. -/
theorem c7_witness :
    (mkNavigateAction true).run = [NavigatorCall.nextCall] ∧
    (mkNavigateAction false).run = [NavigatorCall.previousCall] :=
  ⟨(c7_run_forwards_one_call true).2.1 rfl, (c7_run_forwards_one_call false).2.2 rfl⟩

/-- C8: `getTitle` returns the current input's name whenever an input is
set, and the localized default title whenever no input is set. -/
theorem c8_title (s : PaneState) :
    (∀ i, s.input = some i → TextDiffEditor.getTitle s = i.name) ∧
    (s.input = none → TextDiffEditor.getTitle s = some "Text Diff Editor") := by
  constructor
  · intro i hi
    simp [TextDiffEditor.getTitle, hi]
  · intro hn
    simp [TextDiffEditor.getTitle, hn]

/-- Witness for C8: the title of a pane showing `cInputA`, and the default
title of the fresh pane. -/
theorem c8_witness :
    TextDiffEditor.getTitle c2State = cInputA.name ∧
    TextDiffEditor.getTitle initState = some "Text Diff Editor" :=
  ⟨(c8_title c2State).1 cInputA rfl, (c8_title initState).2 rfl⟩

/-- C9: whenever the current input is a diff-editor input,
`getCodeEditorOptions` sets `readOnly` to true exactly when the modified
side is a string-editor or resource-editor input, and selects the ARIA
label accordingly — a readonly-compare-editor label when readonly and a
text-file-compare-editor label otherwise, prefixed with the input name when
one exists. -/
theorem c9_readonly_and_aria (base : IEditorOptions) (s : PaneState)
    (i : EditorInput) (orig modi : SideInput) (fb : Bool)
    (h1 : s.input = some i) (h2 : i.kind = InputKind.diff orig modi fb) :
    ((getCodeEditorOptions base s).readOnly = true ↔
      (modi.kind = SideKind.stringEditor ∨ modi.kind = SideKind.resourceEditor)) ∧
    (getCodeEditorOptions base s).ariaLabel =
      some (withNameLabel i.name
        (if (getCodeEditorOptions base s).readOnly = true
         then "Readonly text compare editor."
         else "Text file compare editor.")) := by
  simp only [getCodeEditorOptions, h1, h2]
  constructor
  · cases hm : modi.kind <;>
      simp [readOnlyModified, hm]
  · cases hm : modi.kind <;>
      cases hn : i.name with
      | none => simp [readOnlyModified, hm, truthyName, withNameLabel, hn]
      | some n =>
        by_cases he : n.isEmpty <;>
          simp [readOnlyModified, hm, truthyName, withNameLabel, hn, he,
            String.append_assoc]

/-- Witness for C9: the pane showing `cDiffInput` (file-editor modified
side, truthy name) is editable and gets the name-prefixed editable label. -/
theorem c9_witness :
    ((getCodeEditorOptions {} c3State).readOnly = true ↔
      (cSideMod.kind = SideKind.stringEditor ∨ cSideMod.kind = SideKind.resourceEditor)) ∧
    (getCodeEditorOptions {} c3State).ariaLabel =
      some (withNameLabel cDiffInput.name
        (if (getCodeEditorOptions {} c3State).readOnly = true
         then "Readonly text compare editor."
         else "Text file compare editor.")) :=
  c9_readonly_and_aria {} c3State cDiffInput cSideOrig cSideMod false rfl rfl

/-- C10: the toggle-view action is an involution on its own state: each run
flips the `renderSideBySide` value it sends to the control and swaps its
label, and running it twice restores the label, the captured mode flag, and
the mode requested of the control (the second run requests exactly the
control's `renderSideBySide` from before the first run). -/
theorem c10_toggle_involution : ∀ r : Bool,
    (toggleEditorModeRun (toggleEditorModeRun (getToggleEditorModeAction r)).1).2 =
      !(toggleEditorModeRun (getToggleEditorModeAction r)).2 ∧
    (toggleEditorModeRun (getToggleEditorModeAction r)).1.label ≠
      (getToggleEditorModeAction r).label ∧
    (toggleEditorModeRun (toggleEditorModeRun (getToggleEditorModeAction r)).1).1.label =
      (getToggleEditorModeAction r).label ∧
    (toggleEditorModeRun (toggleEditorModeRun (getToggleEditorModeAction r)).1).1.inlineModeActive =
      (getToggleEditorModeAction r).inlineModeActive ∧
    (toggleEditorModeRun (toggleEditorModeRun (getToggleEditorModeAction r)).1).2 = r := by
  decide
